import Mathlib

/-!
Shallow embedding of the geoip-rs service core (src/main.rs).

The embedding follows the source function by function:

* `ip_address_to_resolve`, `get_language`, `get_localized_country_name` and
  `get_value` are direct translations of the functions of the same names.
* `resolved_response` is the construction of the `ResolvedIPResponse` struct
  performed inside the `index` handler (the `Ok` arm of the lookup match),
  with the already-computed localized country name passed as a string, exactly
  as in the source where `localize_country_name` is computed before the
  struct literal.
* `index` is the request handler.  External collaborators (the Rust standard
  library address parsers, the MaxMind database reader, the process
  environment and the localization file on disk, and serde's float printer)
  are passed in as explicit parameters or as the `LocalizationSource` state.
* a Rust `panic!`/`unwrap` failure is modelled by `Option`: a function that
  can panic returns `none` exactly on the inputs on which the Rust code
  panics.
-/

/-- Map from language code to display name, as stored by the MaxMind reader
(`BTreeMap<String, String>` with unique keys); looked up with `List.lookup`. -/
abbrev NamesMap := List (String × String)

/-- The `location` group of a raw geo record (`maxminddb::geoip2`), restricted
to the leaves the handler reads: `latitude`, `longitude`, `time_zone`, each
independently optional. -/
structure Location where
  latitude : Option Float
  longitude : Option Float
  time_zone : Option String

/-- The `postal` group of a raw geo record: optional `code`. -/
structure Postal where
  code : Option String

/-- The `continent` group of a raw geo record: optional `code` and names map. -/
structure Continent where
  code : Option String
  names : Option NamesMap

/-- The `country` group of a raw geo record: optional `iso_code` and names map. -/
structure Country where
  iso_code : Option String
  names : Option NamesMap

/-- One entry of the `subdivisions` vector of a raw geo record. -/
structure Subdivision where
  iso_code : Option String
  names : Option NamesMap

/-- The `city` group of a raw geo record: optional names map. -/
structure CityNames where
  names : Option NamesMap

/-- The raw geo record (`maxminddb::geoip2::City`) restricted to the groups
the handler reads; every group is independently optional, and `subdivisions`
is an optional ordered vector. -/
structure City where
  city : Option CityNames
  continent : Option Continent
  country : Option Country
  location : Option Location
  postal : Option Postal
  subdivisions : Option (List Subdivision)

/-- The flat response record built by the handler (struct `ResolvedIPResponse`
in the source), fields in declaration order as serialized by serde. -/
structure ResolvedIPResponse where
  ipAddress : String
  latitude : Float
  longitude : Float
  postalCode : String
  continentCode : String
  continentName : String
  countryCode : String
  countryLabel : String
  countryName : String
  regionCode : String
  regionName : String
  provinceCode : String
  provinceName : String
  cityName : String
  timeZone : String

/-- The query parameters deserialized by actix (struct `QueryParams`). -/
structure QueryParams where
  ip : Option String
  lang : Option String
  callback : Option String

/-- An HTTP response as built by the handler: status code, content type, body. -/
structure HttpResponse where
  status : Nat
  content_type : String
  body : String

/-- Translation of `get_language`: `lang.unwrap_or_else(|| String::from("en"))`. -/
def get_language (lang : Option String) : String :=
  lang.getD "en"

/-- Longest prefix of a character list free of `':'`. -/
def take_until_colon : List Char → List Char
  | [] => []
  | c :: cs => if c = ':' then [] else c :: take_until_colon cs

/-- Translation of `ip_port.split(':').take(1).last().unwrap()` from
`ip_address_to_resolve`: the first `split(':')` segment of a string is its
longest prefix free of `':'` (total, never panics: `split` always yields at
least one segment). -/
def segment_before_colon (s : String) : String :=
  String.mk (take_until_colon s.data)

/-- Translation of `ip_address_to_resolve`.  The Rust standard library
literal parsers `str::parse::<Ipv4Addr>` / `str::parse::<Ipv6Addr>` are
external collaborators, passed as the predicates `is_ipv4` / `is_ipv6`.
The header map is abstracted by its lookup function (actix `HeaderMap::get`
composed with `to_str().unwrap().to_string()`).  The final
`.expect("unable to find ip address to resolve")` panic is modelled by
`none`. -/
def ip_address_to_resolve (is_ipv4 is_ipv6 : String → Bool) (ip : Option String)
    (headers : String → Option String) (remote_addr : Option String) : Option String :=
  ((ip.filter (fun ip_address => is_ipv4 ip_address || is_ipv6 ip_address)).orElse
      (fun _ => headers "X-Real-IP")).orElse
    (fun _ => remote_addr.map (fun ip_port => segment_before_colon ip_port))

/-- JSON document tree, mirroring `serde_json::Value`. -/
inductive Json where
  | null
  | bool (b : Bool)
  | num (x : Float)
  | str (s : String)
  | arr (elems : List Json)
  | obj (fields : List (String × Json))

/-- Translation of `serde_json::Value`'s `Index<&str>` (used as
`content[lang][code]` in `get_value`): on an object, the value of the key,
or `Null` when absent; `Null` on every non-object. -/
def Json.index (j : Json) (key : String) : Json :=
  match j with
  | .obj fields => (fields.lookup key).getD Json.null
  | _ => Json.null

/-- Whether a JSON value is `Null` (serde `Value::is_null`). -/
def Json.isNull : Json → Bool
  | .null => true
  | _ => false

/-- Outcome of `file.parse::<Value>()` on the localization file's text:
either the text is not valid JSON, or it parses to a document. -/
inductive FileContent where
  | invalid
  | parsed (content : Json)

/-- State of the external localization configuration read by
`get_localized_country_name`: the `GEOIP_RS_COUNTRY_NAMES` environment
variable may be unset; when set, `fs::read_to_string` may fail; when the
file is readable its text either parses as JSON or not. -/
inductive LocalizationSource where
  | unset
  | unreadable
  | readable (file : FileContent)

/-- Translation of `get_value`: parse the file text (`parse::<Value>().unwrap()`
panics on invalid JSON, modelled by `none`); if `content[lang][code]` is null
return the empty string, otherwise `as_str().unwrap()` — a string value is
returned, and a non-null non-string value panics (`none`). -/
def get_value (file : FileContent) (lang code : String) : Option String :=
  match file with
  | .invalid => none
  | .parsed content =>
    match (content.index lang).index code with
    | .null => some ""
    | .str s => some s
    | _ => none

/-- Translation of `get_localized_country_name`: when the environment
variable is unset, return the empty string; when it is set,
`fs::read_to_string(path).unwrap()` panics on an unreadable file (modelled by
`none`), otherwise delegate to `get_value`. -/
def get_localized_country_name (src : LocalizationSource) (lang code : String) :
    Option String :=
  match src with
  | .unset => some ""
  | .unreadable => none
  | .readable file => get_value file lang code

/-- Translation of the `region` binding in `index`:
`subdivisions.as_ref().filter(|s| !s.is_empty()).and_then(|s| s.get(0))`. -/
def region_subdivision (geoip : City) : Option Subdivision :=
  (geoip.subdivisions.filter (fun subdivs => !subdivs.isEmpty)).bind
    (fun subdivs => subdivs[0]?)

/-- Translation of the `province` binding in `index`:
`subdivisions.as_ref().filter(|s| s.len() > 1).and_then(|s| s.get(1))`. -/
def province_subdivision (geoip : City) : Option Subdivision :=
  (geoip.subdivisions.filter (fun subdivs => decide (subdivs.length > 1))).bind
    (fun subdivs => subdivs[1]?)

/-- Translation of the `ResolvedIPResponse` struct literal built in the `Ok`
arm of `index` (lines 139-221): every field access is an `and_then` chain
ending in `unwrap_or` with the default (`0.0` for the coordinates, `""` for
strings, and the precomputed `localize_country_name` for the two country name
fields). -/
def resolved_response (ip_address language localize_country_name : String)
    (geoip : City) : ResolvedIPResponse :=
  { ipAddress := ip_address
    latitude := (geoip.location.bind Location.latitude).getD 0.0
    longitude := (geoip.location.bind Location.longitude).getD 0.0
    postalCode := (geoip.postal.bind Postal.code).getD ""
    continentCode := (geoip.continent.bind Continent.code).getD ""
    continentName := ((geoip.continent.bind Continent.names).bind (List.lookup "en")).getD ""
    countryCode := (geoip.country.bind Country.iso_code).getD ""
    countryLabel := ((geoip.country.bind Country.names).bind (List.lookup language)).getD
      localize_country_name
    countryName := ((geoip.country.bind Country.names).bind (List.lookup "en")).getD
      localize_country_name
    regionCode := ((region_subdivision geoip).bind Subdivision.iso_code).getD ""
    regionName := (((region_subdivision geoip).bind Subdivision.names).bind
      (List.lookup "en")).getD ""
    provinceCode := ((province_subdivision geoip).bind Subdivision.iso_code).getD ""
    provinceName := (((province_subdivision geoip).bind Subdivision.names).bind
      (List.lookup "en")).getD ""
    cityName := ((geoip.city.bind CityNames.names).bind (List.lookup "en")).getD ""
    timeZone := (geoip.location.bind Location.time_zone).getD "" }

/-- Hexadecimal digit (lowercase), as used by serde_json's `\u00XX` escapes. -/
def hex_digit (n : Nat) : Char :=
  if n < 10 then Char.ofNat (Char.toNat '0' + n) else Char.ofNat (Char.toNat 'a' + n - 10)

/-- Escape of a single character inside a JSON string, following serde_json:
quote and backslash are escaped, the control characters BS HT LF FF CR get
their short escapes, other control characters get `\u00XX` (lowercase hex),
everything else is emitted verbatim. -/
def json_escape_char (c : Char) : String :=
  if c = '"' then "\\\""
  else if c = '\\' then "\\\\"
  else if c = '\x08' then "\\b"
  else if c = '\t' then "\\t"
  else if c = '\n' then "\\n"
  else if c = '\x0c' then "\\f"
  else if c = '\r' then "\\r"
  else if Char.toNat c < 32 then
    "\\u00" ++ String.mk [hex_digit (Char.toNat c / 16), hex_digit (Char.toNat c % 16)]
  else String.singleton c

/-- JSON serialization of a string value (quotes plus escaped characters),
following serde_json. -/
def json_quote (s : String) : String :=
  "\"" ++ String.join (s.data.map json_escape_char) ++ "\""

/-- Serialization of `NonResolvedIPResponse` by the derived serde
`Serialize`: a single-key object with the snake_case key `ip_address`. -/
def render_nonresolved (ip_address : String) : String :=
  "\x7b\"ip_address\":" ++ json_quote ip_address ++ "\x7d"

/-- Serialization of `ResolvedIPResponse` by the derived serde `Serialize`:
one object with the fifteen fields in declaration order.  `float_repr` is
serde_json's float printer (external collaborator). -/
def render_resolved (float_repr : Float → String) (r : ResolvedIPResponse) : String :=
  "\x7b\"ipAddress\":" ++ json_quote r.ipAddress ++
  ",\"latitude\":" ++ float_repr r.latitude ++
  ",\"longitude\":" ++ float_repr r.longitude ++
  ",\"postalCode\":" ++ json_quote r.postalCode ++
  ",\"continentCode\":" ++ json_quote r.continentCode ++
  ",\"continentName\":" ++ json_quote r.continentName ++
  ",\"countryCode\":" ++ json_quote r.countryCode ++
  ",\"countryLabel\":" ++ json_quote r.countryLabel ++
  ",\"countryName\":" ++ json_quote r.countryName ++
  ",\"regionCode\":" ++ json_quote r.regionCode ++
  ",\"regionName\":" ++ json_quote r.regionName ++
  ",\"provinceCode\":" ++ json_quote r.provinceCode ++
  ",\"provinceName\":" ++ json_quote r.provinceName ++
  ",\"cityName\":" ++ json_quote r.cityName ++
  ",\"timeZone\":" ++ json_quote r.timeZone ++ "\x7d"

/-- Serialization of `ResolvedIPResponse` to the JSON document tree: the
object serde produces, before printing.  Fields in declaration order; string
fields become JSON strings and the two coordinates become JSON numbers. -/
def serialize_resolved (r : ResolvedIPResponse) : Json :=
  Json.obj [("ipAddress", Json.str r.ipAddress),
    ("latitude", Json.num r.latitude),
    ("longitude", Json.num r.longitude),
    ("postalCode", Json.str r.postalCode),
    ("continentCode", Json.str r.continentCode),
    ("continentName", Json.str r.continentName),
    ("countryCode", Json.str r.countryCode),
    ("countryLabel", Json.str r.countryLabel),
    ("countryName", Json.str r.countryName),
    ("regionCode", Json.str r.regionCode),
    ("regionName", Json.str r.regionName),
    ("provinceCode", Json.str r.provinceCode),
    ("provinceName", Json.str r.provinceName),
    ("cityName", Json.str r.cityName),
    ("timeZone", Json.str r.timeZone)]

/-- Keys of a JSON object, in order. -/
def json_obj_keys : Json → List String
  | .obj fields => fields.map Prod.fst
  | _ => []

/-- Whether a JSON value is an object none of whose values is `Null`. -/
def json_obj_no_null : Json → Bool
  | .obj fields => fields.all (fun p => !(Json.isNull p.2))
  | _ => false

/-- The fixed key list of the resolved response shape, in serde order. -/
def resolved_keys : List String :=
  ["ipAddress", "latitude", "longitude", "postalCode", "continentCode",
   "continentName", "countryCode", "countryLabel", "countryName", "regionCode",
   "regionName", "provinceCode", "provinceName", "cityName", "timeZone"]

/-- Translation of the tail of `index` (lines 230-237): wrap the serialized
record according to the optional callback query parameter.  `HttpResponse::Ok()`
is status 200 in both arms. -/
def format_response (geoip : String) (callback : Option String) : HttpResponse :=
  match callback with
  | some cb =>
    { status := 200
      content_type := "application/javascript; charset=utf-8"
      body := ";" ++ cb ++ "(" ++ geoip ++ ");" }
  | none =>
    { status := 200
      content_type := "application/json; charset=utf-8"
      body := geoip }

/-- Translation of the `index` handler.  External collaborators are
parameters: `is_ipv4` / `is_ipv6` model the standard library literal parsers
(`str::parse::<IpAddr>` succeeds exactly when one of the two does),
`db_lookup` models `data.db.lookup` on the parsed address (keyed here by the
address string), `src` models the localization configuration and file, and
`float_repr` models serde_json's float printer.  `none` models a panic:
either the resolver's `.expect`, or `ip_address.parse().unwrap()` on an
address string that is not an IP literal, or a panic inside
`get_localized_country_name`. -/
def index (is_ipv4 is_ipv6 : String → Bool) (db_lookup : String → Except Unit City)
    (src : LocalizationSource) (float_repr : Float → String)
    (headers : String → Option String) (remote_addr : Option String)
    (query : QueryParams) : Option HttpResponse :=
  let language := get_language query.lang
  match ip_address_to_resolve is_ipv4 is_ipv6 query.ip headers remote_addr with
  | none => none
  | some ip_address =>
    if is_ipv4 ip_address || is_ipv6 ip_address then
      match db_lookup ip_address with
      | .ok geoip =>
        match get_localized_country_name src language
            ((geoip.country.bind Country.iso_code).getD "") with
        | none => none
        | some localize_country_name =>
          some (format_response
            (render_resolved float_repr
              (resolved_response ip_address language localize_country_name geoip))
            query.callback)
      | .error _ => some (format_response (render_nonresolved ip_address) query.callback)
    else none

/-- Split a character list on `'.'` (every segment, possibly empty). -/
def split_dots : List Char → List (List Char)
  | [] => [[]]
  | c :: cs =>
    if c = '.' then [] :: split_dots cs
    else
      match split_dots cs with
      | [] => [[c]]
      | p :: ps => (c :: p) :: ps

/-- Decimal value of a digit list. -/
def decimal_value (cs : List Char) : Nat :=
  cs.foldl (fun n c => n * 10 + (Char.toNat c - Char.toNat '0')) 0

/-- Reference model of one octet of the Rust standard library's `Ipv4Addr`
literal parser (external collaborator; used only to instantiate the parser
parameters on concrete inputs): one to three decimal digits, no leading
zeros, value at most 255. -/
def octet_ok (cs : List Char) : Bool :=
  (!cs.isEmpty) && decide (cs.length ≤ 3) && cs.all Char.isDigit &&
  (cs.length == 1 || cs.headD ' ' != '0') && decide (decimal_value cs ≤ 255)

/-- Reference model of `str::parse::<Ipv4Addr>().is_ok()`: four dot-separated
octets, each accepted by `octet_ok`. -/
def is_ipv4_literal (s : String) : Bool :=
  let parts := split_dots s.data
  parts.length == 4 && parts.all octet_ok

/-- Address-resolver contract written from the specification's words: use the
explicit string when it is an IP literal; otherwise the raw proxy header value
when present; otherwise the segment of the peer address before the first
colon.  Compared against the translated `ip_address_to_resolve`. -/
def resolver_spec (is_ipv4 is_ipv6 : String → Bool) (ip : Option String)
    (headers : String → Option String) (remote_addr : Option String) : Option String :=
  match ip with
  | some s =>
    if is_ipv4 s || is_ipv6 s then some s
    else
      match headers "X-Real-IP" with
      | some v => some v
      | none => remote_addr.map segment_before_colon
  | none =>
    match headers "X-Real-IP" with
    | some v => some v
    | none => remote_addr.map segment_before_colon

/-- The `countryName` fallback chain as the specification claims it:
requested-language name, then English name, then the externally localized
name (itself empty when unavailable).  Compared against the translated
mapper, which never consults the requested language for `countryName`. -/
def claimed_countryName (geoip : City) (language localize_country_name : String) : String :=
  match geoip.country.bind Country.names with
  | some names =>
    ((names.lookup language).orElse (fun _ => names.lookup "en")).getD localize_country_name
  | none => localize_country_name

/-- A raw geo record with every optional group absent. -/
def empty_city : City :=
  { city := none, continent := none, country := none, location := none,
    postal := none, subdivisions := none }

/-- A raw geo record whose country names map has entries for `fr` and `en`. -/
def france_city : City :=
  { empty_city with
    country := some
      { iso_code := some "FR"
        names := some [("fr", "Republique francaise"), ("en", "France")] } }

/-- A raw geo record with exactly one subdivision. -/
def one_subdivision_city : City :=
  { empty_city with
    subdivisions := some [{ iso_code := some "VEN", names := some [("en", "Veneto")] }] }

/-- Header map holding only `X-Real-IP` with the given value. -/
def hdr_real_ip (value : String) : String → Option String :=
  fun name => if name == "X-Real-IP" then some value else none

/-- Empty header map. -/
def no_headers : String → Option String := fun _ => none

/-- A database in which every lookup fails (address not found). -/
def db_always_miss : String → Except Unit City := fun _ => Except.error ()

/-- A localization table mapping only `en.IT`. -/
def demo_table : Json :=
  Json.obj [("en", Json.obj [("IT", Json.str "Italia")])]

/-- Region selection equals plain positional access at index 0: the
non-emptiness filter in the source is redundant with `get(0)`. -/
theorem region_subdivision_eq (geoip : City) :
    region_subdivision geoip = geoip.subdivisions.bind (fun subdivs => subdivs[0]?) := by
  unfold region_subdivision
  cases geoip.subdivisions with
  | none => rfl
  | some xs =>
    cases xs with
    | nil => rfl
    | cons a t => rfl

/-- Province selection equals plain positional access at index 1: the
length filter in the source is redundant with `get(1)`. -/
theorem province_subdivision_eq (geoip : City) :
    province_subdivision geoip = geoip.subdivisions.bind (fun subdivs => subdivs[1]?) := by
  unfold province_subdivision
  cases geoip.subdivisions with
  | none => rfl
  | some xs =>
    match xs with
    | [] => rfl
    | [a] => rfl
    | a :: b :: t => simp [Option.filter]

/-- C9: the language resolver returns the given code unchanged when it is
present (any string, no validation) and returns "en" when it is absent. -/
theorem c9_language_default :
    (∀ code : String, get_language (some code) = code) ∧ get_language none = "en" :=
  ⟨fun _ => rfl, rfl⟩

/-- C7: with the callback absent the formatter returns exactly the JSON
serialization with content type `application/json; charset=utf-8`; with a
callback present it returns `;cb(json);` with the name interpolated verbatim
and content type `application/javascript; charset=utf-8`; both at status 200. -/
theorem c7_response_formatter :
    ∀ (geoip cb : String),
      format_response geoip none =
        { status := 200, content_type := "application/json; charset=utf-8", body := geoip }
      ∧ format_response geoip (some cb) =
        { status := 200, content_type := "application/javascript; charset=utf-8",
          body := ";" ++ cb ++ "(" ++ geoip ++ ");" } :=
  fun _ _ => ⟨rfl, rfl⟩

/-- C8 counterexample: the serialized resolved response record carries
fifteen fixed keys, not fourteen as the claim counts them. -/
theorem c8_fourteen_keys_counterexample :
    (json_obj_keys (serialize_resolved (resolved_response "1.2.3.4" "en" "" empty_city))).length
      = 15
    ∧ (json_obj_keys (serialize_resolved (resolved_response "1.2.3.4" "en" "" empty_city))).length
      ≠ 14 :=
  ⟨rfl, by decide⟩

/-- C8 (amended): serializing any resolved response record yields a JSON
object whose keys are exactly the fifteen fixed keys, in declaration order,
and none of whose values is null — every missing source datum was already
replaced by an empty string or 0.0 in the record itself. -/
theorem c8_fifteen_keys_present (r : ResolvedIPResponse) :
    json_obj_keys (serialize_resolved r) = resolved_keys
    ∧ json_obj_no_null (serialize_resolved r) = true :=
  ⟨rfl, rfl⟩

/-- C2 counterexample: for a record whose country names map contains both the
requested language ("fr") and English, the claim's chain for countryName
yields the requested-language name, while the code yields the English name —
the code never consults the requested language for countryName. -/
theorem c2_requested_language_counterexample :
    (resolved_response "1.2.3.4" "fr" "" france_city).countryName = "France"
    ∧ claimed_countryName france_city "fr" "" = "Republique francaise"
    ∧ (resolved_response "1.2.3.4" "fr" "" france_city).countryName ≠
        claimed_countryName france_city "fr" "" :=
  ⟨by decide, by decide, by decide⟩

/-- C2 (amended): countryLabel equals the country's name for the requested
language if present, else the externally localized name (itself empty when
unavailable); countryName equals the English name if present, else the
localized name — the requested-language entry is never consulted for
countryName.  In particular, when the names map lacks the requested language,
maps "en" to "France", and localization returned "", countryName is "France"
and countryLabel is "". -/
theorem c2_country_fallback (ip language localize : String) (geoip : City) :
    ((resolved_response ip language localize geoip).countryLabel
        = ((geoip.country.bind Country.names).bind (List.lookup language)).getD localize)
    ∧ ((resolved_response ip language localize geoip).countryName
        = ((geoip.country.bind Country.names).bind (List.lookup "en")).getD localize)
    ∧ ∀ names : NamesMap, geoip.country.bind Country.names = some names →
        names.lookup language = none → names.lookup "en" = some "France" →
        localize = "" →
        (resolved_response ip language localize geoip).countryName = "France"
        ∧ (resolved_response ip language localize geoip).countryLabel = "" := by
  refine ⟨rfl, rfl, ?_⟩
  intro names h hlang hen hloc
  constructor
  · have e : (resolved_response ip language localize geoip).countryName
        = ((geoip.country.bind Country.names).bind (List.lookup "en")).getD localize := rfl
    rw [e, h]
    simp [hen]
  · have e : (resolved_response ip language localize geoip).countryLabel
        = ((geoip.country.bind Country.names).bind (List.lookup language)).getD localize := rfl
    rw [e, h]
    simp [hlang, hloc]

/-- C2 witness: the amended fallback evaluated on the concrete France record,
with requested language "de" (absent from the map) and empty localization. -/
theorem c2_country_fallback_witness :
    (resolved_response "1.2.3.4" "de" "" france_city).countryName = "France"
    ∧ (resolved_response "1.2.3.4" "de" "" france_city).countryLabel = "" :=
  (c2_country_fallback "1.2.3.4" "de" "" france_city).2.2
    [("fr", "Republique francaise"), ("en", "France")] rfl (by decide) (by decide) rfl

/-- C6 counterexample: with the localization path configured but the file
unreadable, `fs::read_to_string(path).unwrap()` panics — the failure surfaces
instead of degrading to the empty string as the claim states. -/
theorem c6_unreadable_counterexample :
    get_localized_country_name LocalizationSource.unreadable "en" "FR" = none
    ∧ get_localized_country_name LocalizationSource.unreadable "en" "FR" ≠ some "" :=
  ⟨rfl, by decide⟩

/-- C6 (amended): the localizer returns the empty string whenever the
configuration is absent, and whenever a readable, valid-JSON source lacks the
language key or the country-code key; but a configured-yet-unreadable file, or
a source that is not valid JSON, panics — that error does surface. -/
theorem c6_localizer_empty_fallbacks (lang code : String) (j : Json) :
    get_localized_country_name LocalizationSource.unset lang code = some ""
    ∧ (Json.index (Json.index j lang) code = Json.null →
        get_localized_country_name (LocalizationSource.readable (FileContent.parsed j)) lang code
          = some "")
    ∧ get_localized_country_name LocalizationSource.unreadable lang code = none
    ∧ get_localized_country_name (LocalizationSource.readable FileContent.invalid) lang code
        = none := by
  refine ⟨rfl, ?_, rfl, rfl⟩
  intro h
  simp [get_localized_country_name, get_value, h]

/-- C6 witness: the empty-string fallbacks evaluated on a concrete table that
lacks the requested country code. -/
theorem c6_localizer_empty_fallbacks_witness :
    get_localized_country_name LocalizationSource.unset "en" "FR" = some ""
    ∧ get_localized_country_name (LocalizationSource.readable (FileContent.parsed demo_table))
        "en" "FR" = some "" := by
  have h := c6_localizer_empty_fallbacks "en" "FR" demo_table
  exact ⟨h.1, h.2.1 rfl⟩

/-- C3: the address resolver picks exactly one candidate with
first-match-wins priority — the explicit string when it parses as an IPv4 or
IPv6 literal, otherwise the raw X-Real-IP header value when present,
otherwise the segment of the peer address before the first colon; in
particular the peer "203.0.113.5:54321" yields "203.0.113.5". -/
theorem c3_address_resolver_priority :
    (∀ (is_ipv4 is_ipv6 : String → Bool) (ip : Option String)
        (headers : String → Option String) (remote_addr : Option String),
      ip_address_to_resolve is_ipv4 is_ipv6 ip headers remote_addr
        = resolver_spec is_ipv4 is_ipv6 ip headers remote_addr)
    ∧ ip_address_to_resolve is_ipv4_literal (fun _ => false) none no_headers
        (some "203.0.113.5:54321") = some "203.0.113.5" := by
  constructor
  · intro is_ipv4 is_ipv6 ip headers remote_addr
    cases ip with
    | none =>
      cases hh : headers "X-Real-IP" with
      | none =>
        simp [ip_address_to_resolve, resolver_spec, Option.filter, Option.orElse, hh]
      | some v =>
        simp [ip_address_to_resolve, resolver_spec, Option.filter, Option.orElse, hh]
    | some s =>
      cases hb : (is_ipv4 s || is_ipv6 s) with
      | false =>
        cases hh : headers "X-Real-IP" with
        | none =>
          simp [ip_address_to_resolve, resolver_spec, Option.filter, Option.orElse, hh, hb]
        | some v =>
          simp [ip_address_to_resolve, resolver_spec, Option.filter, Option.orElse, hh, hb]
      | true =>
        simp [ip_address_to_resolve, resolver_spec, Option.filter, Option.orElse, hb]
  · decide

/-- C4: the region fields come from the subdivision at index 0 and the
province fields from the subdivision at index 1, without reordering; with no
subdivisions all four fields are empty; with exactly one subdivision the
province fields are empty and the region fields reflect that entry. -/
theorem c4_subdivision_indexing (ip language localize : String) (geoip : City) :
    ((resolved_response ip language localize geoip).regionCode
        = ((geoip.subdivisions.bind (fun subdivs => subdivs[0]?)).bind
            Subdivision.iso_code).getD ""
      ∧ (resolved_response ip language localize geoip).regionName
        = (((geoip.subdivisions.bind (fun subdivs => subdivs[0]?)).bind
            Subdivision.names).bind (List.lookup "en")).getD ""
      ∧ (resolved_response ip language localize geoip).provinceCode
        = ((geoip.subdivisions.bind (fun subdivs => subdivs[1]?)).bind
            Subdivision.iso_code).getD ""
      ∧ (resolved_response ip language localize geoip).provinceName
        = (((geoip.subdivisions.bind (fun subdivs => subdivs[1]?)).bind
            Subdivision.names).bind (List.lookup "en")).getD "")
    ∧ (geoip.subdivisions = none ∨ geoip.subdivisions = some [] →
        (resolved_response ip language localize geoip).regionCode = ""
        ∧ (resolved_response ip language localize geoip).regionName = ""
        ∧ (resolved_response ip language localize geoip).provinceCode = ""
        ∧ (resolved_response ip language localize geoip).provinceName = "")
    ∧ ∀ a : Subdivision, geoip.subdivisions = some [a] →
        (resolved_response ip language localize geoip).provinceCode = ""
        ∧ (resolved_response ip language localize geoip).provinceName = ""
        ∧ (resolved_response ip language localize geoip).regionCode = a.iso_code.getD ""
        ∧ (resolved_response ip language localize geoip).regionName
            = (a.names.bind (List.lookup "en")).getD "" := by
  refine ⟨⟨?_, ?_, ?_, ?_⟩, ?_, ?_⟩
  · have e : (resolved_response ip language localize geoip).regionCode
        = ((region_subdivision geoip).bind Subdivision.iso_code).getD "" := rfl
    rw [e, region_subdivision_eq]
  · have e : (resolved_response ip language localize geoip).regionName
        = (((region_subdivision geoip).bind Subdivision.names).bind
            (List.lookup "en")).getD "" := rfl
    rw [e, region_subdivision_eq]
  · have e : (resolved_response ip language localize geoip).provinceCode
        = ((province_subdivision geoip).bind Subdivision.iso_code).getD "" := rfl
    rw [e, province_subdivision_eq]
  · have e : (resolved_response ip language localize geoip).provinceName
        = (((province_subdivision geoip).bind Subdivision.names).bind
            (List.lookup "en")).getD "" := rfl
    rw [e, province_subdivision_eq]
  · rintro (h | h) <;>
    · have hr : region_subdivision geoip = none := by rw [region_subdivision_eq, h]; rfl
      have hp : province_subdivision geoip = none := by rw [province_subdivision_eq, h]; rfl
      simp [resolved_response, hr, hp]
  · intro a h
    have hr : region_subdivision geoip = some a := by rw [region_subdivision_eq, h]; rfl
    have hp : province_subdivision geoip = none := by rw [province_subdivision_eq, h]; rfl
    simp [resolved_response, hr, hp]

/-- C4 witness: the subdivision rules evaluated on a record with no
subdivisions and on a record with exactly one subdivision. -/
theorem c4_subdivision_indexing_witness :
    ((resolved_response "1.2.3.4" "en" "" empty_city).regionCode = ""
      ∧ (resolved_response "1.2.3.4" "en" "" empty_city).regionName = ""
      ∧ (resolved_response "1.2.3.4" "en" "" empty_city).provinceCode = ""
      ∧ (resolved_response "1.2.3.4" "en" "" empty_city).provinceName = "")
    ∧ ((resolved_response "1.2.3.4" "en" "" one_subdivision_city).provinceCode = ""
      ∧ (resolved_response "1.2.3.4" "en" "" one_subdivision_city).provinceName = ""
      ∧ (resolved_response "1.2.3.4" "en" "" one_subdivision_city).regionCode
          = (Option.some "VEN").getD ""
      ∧ (resolved_response "1.2.3.4" "en" "" one_subdivision_city).regionName
          = ((Option.some [("en", "Veneto")]).bind (List.lookup "en")).getD "") := by
  constructor
  · exact (c4_subdivision_indexing "1.2.3.4" "en" "" empty_city).2.1 (Or.inl rfl)
  · exact (c4_subdivision_indexing "1.2.3.4" "en" "" one_subdivision_city).2.2
      { iso_code := some "VEN", names := some [("en", "Veneto")] } rfl

/-- C5: the geo record mapper is a total function of the raw record (it is
defined for every `City` value), and every missing access path short-circuits
to its default — 0.0 for the coordinates and the empty string for every other
field, the two country name fields defaulting through the localized name,
which is itself empty (hypothesis `hloc`, the localizer's own default). -/
theorem c5_mapper_defaults (ip language localize : String) (geoip : City)
    (hloc : localize = "") :
    (geoip.location.bind Location.latitude = none →
        (resolved_response ip language localize geoip).latitude = 0.0)
    ∧ (geoip.location.bind Location.longitude = none →
        (resolved_response ip language localize geoip).longitude = 0.0)
    ∧ (geoip.location.bind Location.time_zone = none →
        (resolved_response ip language localize geoip).timeZone = "")
    ∧ (geoip.postal.bind Postal.code = none →
        (resolved_response ip language localize geoip).postalCode = "")
    ∧ (geoip.continent.bind Continent.code = none →
        (resolved_response ip language localize geoip).continentCode = "")
    ∧ ((geoip.continent.bind Continent.names).bind (List.lookup "en") = none →
        (resolved_response ip language localize geoip).continentName = "")
    ∧ (geoip.country.bind Country.iso_code = none →
        (resolved_response ip language localize geoip).countryCode = "")
    ∧ ((geoip.country.bind Country.names).bind (List.lookup language) = none →
        (resolved_response ip language localize geoip).countryLabel = "")
    ∧ ((geoip.country.bind Country.names).bind (List.lookup "en") = none →
        (resolved_response ip language localize geoip).countryName = "")
    ∧ ((region_subdivision geoip).bind Subdivision.iso_code = none →
        (resolved_response ip language localize geoip).regionCode = "")
    ∧ (((region_subdivision geoip).bind Subdivision.names).bind (List.lookup "en") = none →
        (resolved_response ip language localize geoip).regionName = "")
    ∧ ((province_subdivision geoip).bind Subdivision.iso_code = none →
        (resolved_response ip language localize geoip).provinceCode = "")
    ∧ (((province_subdivision geoip).bind Subdivision.names).bind (List.lookup "en") = none →
        (resolved_response ip language localize geoip).provinceName = "")
    ∧ ((geoip.city.bind CityNames.names).bind (List.lookup "en") = none →
        (resolved_response ip language localize geoip).cityName = "") := by
  refine ⟨?_, ?_, ?_, ?_, ?_, ?_, ?_, ?_, ?_, ?_, ?_, ?_, ?_, ?_⟩ <;>
    · intro h
      simp [resolved_response, h, hloc]

/-- C5 witness: the defaults evaluated on the record with every optional
group absent and an empty localized name. -/
theorem c5_mapper_defaults_witness :
    (resolved_response "1.2.3.4" "it" "" empty_city).latitude = 0.0
    ∧ (resolved_response "1.2.3.4" "it" "" empty_city).longitude = 0.0
    ∧ (resolved_response "1.2.3.4" "it" "" empty_city).timeZone = ""
    ∧ (resolved_response "1.2.3.4" "it" "" empty_city).postalCode = ""
    ∧ (resolved_response "1.2.3.4" "it" "" empty_city).continentCode = ""
    ∧ (resolved_response "1.2.3.4" "it" "" empty_city).continentName = ""
    ∧ (resolved_response "1.2.3.4" "it" "" empty_city).countryCode = ""
    ∧ (resolved_response "1.2.3.4" "it" "" empty_city).countryLabel = ""
    ∧ (resolved_response "1.2.3.4" "it" "" empty_city).countryName = ""
    ∧ (resolved_response "1.2.3.4" "it" "" empty_city).regionCode = ""
    ∧ (resolved_response "1.2.3.4" "it" "" empty_city).regionName = ""
    ∧ (resolved_response "1.2.3.4" "it" "" empty_city).provinceCode = ""
    ∧ (resolved_response "1.2.3.4" "it" "" empty_city).provinceName = ""
    ∧ (resolved_response "1.2.3.4" "it" "" empty_city).cityName = "" := by
  obtain ⟨h1, h2, h3, h4, h5, h6, h7, h8, h9, h10, h11, h12, h13, h14⟩ :=
    c5_mapper_defaults "1.2.3.4" "it" "" empty_city rfl
  exact ⟨h1 rfl, h2 rfl, h3 rfl, h4 rfl, h5 rfl, h6 rfl, h7 rfl, h8 rfl, h9 rfl,
    h10 rfl, h11 rfl, h12 rfl, h13 rfl, h14 rfl⟩

/-- C10: continentName, regionName, provinceName and cityName are always
taken from the "en" entry of the respective names map (empty when absent),
and with the externally localized name held fixed, every field of the mapped
record except countryLabel is unchanged when the requested language changes —
the language only influences countryLabel and the external localized-name
lookup, which is carved out as the `localize` parameter. -/
theorem c10_names_always_english (ip language localize : String) (geoip : City) :
    ((resolved_response ip language localize geoip).continentName
        = ((geoip.continent.bind Continent.names).bind (List.lookup "en")).getD ""
      ∧ (resolved_response ip language localize geoip).regionName
        = (((region_subdivision geoip).bind Subdivision.names).bind (List.lookup "en")).getD ""
      ∧ (resolved_response ip language localize geoip).provinceName
        = (((province_subdivision geoip).bind Subdivision.names).bind
            (List.lookup "en")).getD ""
      ∧ (resolved_response ip language localize geoip).cityName
        = ((geoip.city.bind CityNames.names).bind (List.lookup "en")).getD "")
    ∧ ∀ language2 : String,
        (resolved_response ip language2 localize geoip).ipAddress
          = (resolved_response ip language localize geoip).ipAddress
        ∧ (resolved_response ip language2 localize geoip).latitude
          = (resolved_response ip language localize geoip).latitude
        ∧ (resolved_response ip language2 localize geoip).longitude
          = (resolved_response ip language localize geoip).longitude
        ∧ (resolved_response ip language2 localize geoip).postalCode
          = (resolved_response ip language localize geoip).postalCode
        ∧ (resolved_response ip language2 localize geoip).continentCode
          = (resolved_response ip language localize geoip).continentCode
        ∧ (resolved_response ip language2 localize geoip).continentName
          = (resolved_response ip language localize geoip).continentName
        ∧ (resolved_response ip language2 localize geoip).countryCode
          = (resolved_response ip language localize geoip).countryCode
        ∧ (resolved_response ip language2 localize geoip).countryName
          = (resolved_response ip language localize geoip).countryName
        ∧ (resolved_response ip language2 localize geoip).regionCode
          = (resolved_response ip language localize geoip).regionCode
        ∧ (resolved_response ip language2 localize geoip).regionName
          = (resolved_response ip language localize geoip).regionName
        ∧ (resolved_response ip language2 localize geoip).provinceCode
          = (resolved_response ip language localize geoip).provinceCode
        ∧ (resolved_response ip language2 localize geoip).provinceName
          = (resolved_response ip language localize geoip).provinceName
        ∧ (resolved_response ip language2 localize geoip).cityName
          = (resolved_response ip language localize geoip).cityName
        ∧ (resolved_response ip language2 localize geoip).timeZone
          = (resolved_response ip language localize geoip).timeZone := by
  refine ⟨⟨rfl, rfl, rfl, rfl⟩, ?_⟩
  intro language2
  exact ⟨rfl, rfl, rfl, rfl, rfl, rfl, rfl, rfl, rfl, rfl, rfl, rfl, rfl, rfl⟩

/-- C1 (code bug): when the resolved address string is not an IP literal —
here "999.999.999.999" arriving through the X-Real-IP header — the handler
panics at `ip_address.parse().unwrap()` before the lookup (modelled by
`none`), instead of answering HTTP 200 with the unresolved record as the
claim states; by contrast, for an address that does parse but misses the
database, the 200 response carrying the unresolved record is returned. -/
theorem c1_invalid_ip_crashes_handler
    (is_ipv4 is_ipv6 : String → Bool) (db_lookup : String → Except Unit City)
    (src : LocalizationSource) (float_repr : Float → String)
    (remote_addr : Option String) (lang callback : Option String)
    (h4 : is_ipv4 "999.999.999.999" = false) (h6 : is_ipv6 "999.999.999.999" = false) :
    index is_ipv4 is_ipv6 db_lookup src float_repr (hdr_real_ip "999.999.999.999")
        remote_addr { ip := none, lang := lang, callback := callback } = none
    ∧ ∀ s : String, is_ipv4 s = true → db_lookup s = Except.error () →
        index is_ipv4 is_ipv6 db_lookup src float_repr (hdr_real_ip "999.999.999.999")
            remote_addr { ip := some s, lang := lang, callback := none }
          = some { status := 200, content_type := "application/json; charset=utf-8",
                   body := render_nonresolved s } := by
  constructor
  · simp [index, ip_address_to_resolve, hdr_real_ip, Option.filter, Option.orElse, h4, h6]
  · intro s hs hdb
    simp [index, ip_address_to_resolve, hdr_real_ip, Option.filter, Option.orElse, hs, hdb,
      format_response]

/-- C1 witness: the handler evaluated with the reference IPv4 parser, an
always-missing database, no localization configuration, a concrete peer
address, and the X-Real-IP header holding "999.999.999.999". -/
theorem c1_invalid_ip_crashes_handler_witness :
    index is_ipv4_literal (fun _ => false) db_always_miss LocalizationSource.unset
        (fun _ => "0") (hdr_real_ip "999.999.999.999") (some "127.0.0.1:54321")
        { ip := none, lang := none, callback := none } = none
    ∧ index is_ipv4_literal (fun _ => false) db_always_miss LocalizationSource.unset
        (fun _ => "0") (hdr_real_ip "999.999.999.999") (some "127.0.0.1:54321")
        { ip := some "10.1.2.3", lang := none, callback := none }
      = some { status := 200, content_type := "application/json; charset=utf-8",
               body := render_nonresolved "10.1.2.3" } := by
  have h := c1_invalid_ip_crashes_handler is_ipv4_literal (fun _ => false) db_always_miss
    LocalizationSource.unset (fun _ => "0") (some "127.0.0.1:54321") none none
    (by decide) rfl
  exact ⟨h.1, h.2 "10.1.2.3" (by decide) rfl⟩
